import Mathlib

/-!
Verification of the Service Registry core of the metalepsis repository.

The definitions below are a shallow embedding of the Go source:
* the relational store (sregistrar: createTables / registerService /
  extendServiceValidity / getRecord / getAllRecords / listCurrentServices /
  checkExpiration / deleteCompleteServiceById / findServices),
* the expiration scheduler (container/heap based cleaningQueue),
* the leader-coordination tick (Role) and the HTTP-level handlers
  (updateDB / cleanDB / queryDB).

Time instants are modelled as natural numbers (seconds); RFC-3339 strings,
`datetime('now')` and `time.Time` values denoting the same instant are
identified.  SQLite rowids are modelled by per-table counters starting at 1;
the SQLite primary-key invariant (every stored rowid is below the counter)
appears as an explicit hypothesis where a proof needs it.
-/

/-- Row of the `Services` table (see createTables).  `ACost REAL` is carried
opaquely as an integer: no claim computes with it. -/
structure ServiceRow where
  sid : Nat
  definition : String
  systemName : String
  certificate : String
  subPath : String
  version : String
  created : Nat
  updated : Nat
  regLife : Nat
  endOfValidity : Nat
  subscribeAble : Bool
  acost : Int
  cunit : String
deriving Repr, DecidableEq

/-- Row of the `IPAddresses` table. -/
structure IPRow where
  ipid : Nat
  ipAddress : String
deriving Repr, DecidableEq

/-- Row of the `ProtoPorts` table. -/
structure PPRow where
  ppid : Nat
  proto : String
  port : Nat
deriving Repr, DecidableEq

/-- Row of the `Details` table. -/
structure DetailRow where
  did : Nat
  detailKey : String
  detailValue : String
deriving Repr, DecidableEq

/-- Row of the `ServicesXIP` join table. -/
structure SxIPRow where
  serviceId : Nat
  ipAddressId : Nat
deriving Repr, DecidableEq

/-- Row of the `ServicesXPP` join table. -/
structure SxPPRow where
  serviceId : Nat
  protoPortId : Nat
deriving Repr, DecidableEq

/-- Row of the `ServicesXDetails` join table. -/
structure SxDRow where
  serviceId : Nat
  detailId : Nat
deriving Repr, DecidableEq

/-- The seven-table SQLite database created by createTables, plus the rowid
counters of the four entity tables. -/
structure RegistryDB where
  services : List ServiceRow
  ipAddresses : List IPRow
  protoPorts : List PPRow
  detailRows : List DetailRow
  servicesXIP : List SxIPRow
  servicesXPP : List SxPPRow
  servicesXDetails : List SxDRow
  nextServiceId : Nat
  nextIPId : Nat
  nextPPId : Nat
  nextDetailId : Nat
deriving Repr, DecidableEq

/-- The freshly created database (createDB deletes any existing file). -/
def emptyDB : RegistryDB :=
  { services := [], ipAddresses := [], protoPorts := [], detailRows := []
    servicesXIP := [], servicesXPP := [], servicesXDetails := []
    nextServiceId := 1, nextIPId := 1, nextPPId := 1, nextDetailId := 1 }

/-- forms.ServiceRecord_v1.  Go maps (ProtoPort, Details) are modelled as
association lists. -/
structure ServiceRecord where
  id : Nat
  serviceDefinition : String
  systemName : String
  certificate : String
  subPath : String
  version : String
  created : Nat
  updated : Nat
  regLife : Nat
  endOfValidity : Nat
  subscribeAble : Bool
  acost : Int
  cunit : String
  ipAddresses : List String
  protoPort : List (String × Nat)
  details : List (String × List String)
deriving Repr, DecidableEq

/-- forms.ServiceQuest_v1. -/
structure ServiceQuest where
  serviceDefinition : String
  details : List (String × List String)
deriving Repr, DecidableEq

/-!
registerService executes its writes one `rsc.db.Exec` at a time (note: through
the `db` handle, not through the transaction it opened).  Each `Exec` is a
step; a step either commits immediately to the database or fails.  `FailSpec`
injects a failure at a given step index, modelling a failing write.
-/

/-- Which single write step (if any) fails. -/
abbrev FailSpec := Option Nat

/-- State threaded through registerService's write sequence: the database
(every successful `db.Exec` is immediately durable, since the statements do
not run on the opened transaction), the index of the next step, and whether a
step has failed (after which the Go function has returned). -/
structure WState where
  db : RegistryDB
  step : Nat
  failed : Bool
deriving Repr

/-- Run one `db.Exec` write: skipped after a failure, fails if the failure
specification names this step, otherwise applies the write. -/
def doStep (fa : FailSpec) (op : RegistryDB → RegistryDB) (s : WState) : WState :=
  if s.failed then s
  else if fa = some s.step then { s with step := s.step + 1, failed := true }
  else { db := op s.db, step := s.step + 1, failed := false }

/-- The row written by registerService's `INSERT INTO Services`:
`Created = datetime('now')`, `Updated = rec.Updated = now`,
`EndOfValidity = now + RegLife`; the fresh rowid is the counter. -/
def regRow (rec : ServiceRecord) (now : Nat) (sid : Nat) : ServiceRow :=
  { sid := sid, definition := rec.serviceDefinition, systemName := rec.systemName
    certificate := rec.certificate, subPath := rec.subPath, version := rec.version
    created := now, updated := now, regLife := rec.regLife
    endOfValidity := now + rec.regLife
    subscribeAble := rec.subscribeAble, acost := rec.acost, cunit := rec.cunit }

/-- `INSERT INTO Services (...) VALUES (...)`. -/
def insServiceRowOp (rec : ServiceRecord) (now : Nat) (db : RegistryDB) : RegistryDB :=
  { db with services := db.services ++ [regRow rec now db.nextServiceId]
            nextServiceId := db.nextServiceId + 1 }

/-- `INSERT INTO IPAddresses (IPAddress) VALUES (?)`. -/
def insIPOp (addr : String) (db : RegistryDB) : RegistryDB :=
  { db with ipAddresses := db.ipAddresses ++ [{ ipid := db.nextIPId, ipAddress := addr }]
            nextIPId := db.nextIPId + 1 }

/-- `INSERT INTO ServicesXIP (ServiceId, IPAddressId) VALUES (?, ?)`. -/
def insSxIPOp (sid ipid : Nat) (db : RegistryDB) : RegistryDB :=
  { db with servicesXIP := db.servicesXIP ++ [{ serviceId := sid, ipAddressId := ipid }] }

/-- `INSERT INTO ProtoPorts (Proto, Port) VALUES (?, ?)`. -/
def insPPOp (proto : String) (port : Nat) (db : RegistryDB) : RegistryDB :=
  { db with protoPorts := db.protoPorts ++ [{ ppid := db.nextPPId, proto := proto, port := port }]
            nextPPId := db.nextPPId + 1 }

/-- `INSERT INTO ServicesXPP (ServiceId, ProtoPortId) VALUES (?, ?)`. -/
def insSxPPOp (sid ppid : Nat) (db : RegistryDB) : RegistryDB :=
  { db with servicesXPP := db.servicesXPP ++ [{ serviceId := sid, protoPortId := ppid }] }

/-- `INSERT INTO Details (DetailKey, DetailValue) VALUES (?, ?)`. -/
def insDetailOp (k v : String) (db : RegistryDB) : RegistryDB :=
  { db with detailRows := db.detailRows ++ [{ did := db.nextDetailId, detailKey := k, detailValue := v }]
            nextDetailId := db.nextDetailId + 1 }

/-- `INSERT INTO ServicesXDetails (ServiceId, DetailId) VALUES (?, ?)`. -/
def insSxDOp (sid did : Nat) (db : RegistryDB) : RegistryDB :=
  { db with servicesXDetails := db.servicesXDetails ++ [{ serviceId := sid, detailId := did }] }

/-- registerService's loop over rec.IPAddresses: insert the address, then the
join row using the address's LastInsertId. -/
def regIPLoop (fa : FailSpec) (sid : Nat) : List String → WState → WState
  | [], s => s
  | addr :: rest, s =>
    let ipid := s.db.nextIPId
    let s1 := doStep fa (insIPOp addr) s
    let s2 := doStep fa (insSxIPOp sid ipid) s1
    regIPLoop fa sid rest s2

/-- registerService's loop over rec.ProtoPort. -/
def regPPLoop (fa : FailSpec) (sid : Nat) : List (String × Nat) → WState → WState
  | [], s => s
  | pp :: rest, s =>
    let ppid := s.db.nextPPId
    let s1 := doStep fa (insPPOp pp.fst pp.snd) s
    let s2 := doStep fa (insSxPPOp sid ppid) s1
    regPPLoop fa sid rest s2

/-- Inner loop of registerService's Details loop: all values of one key. -/
def regDetailValues (fa : FailSpec) (sid : Nat) (key : String) : List String → WState → WState
  | [], s => s
  | v :: rest, s =>
    let did := s.db.nextDetailId
    let s1 := doStep fa (insDetailOp key v) s
    let s2 := doStep fa (insSxDOp sid did) s1
    regDetailValues fa sid key rest s2

/-- Outer loop of registerService's Details loop. -/
def regDetailLoop (fa : FailSpec) (sid : Nat) : List (String × List String) → WState → WState
  | [], s => s
  | kv :: rest, s => regDetailLoop fa sid rest (regDetailValues fa sid kv.fst kv.snd s)

/-- registerService (part_003, lines 266-348).  Sets Created/Updated to `now`
and EndOfValidity to `now + RegLife`, inserts the Services row, then the
sub-entity and join rows in source order.  Returns the updated record (with
the assigned id) on success, `none` on a failed write; in either case it
returns the database as actually left behind: every `Exec` before the failing
one is durable because the statements run on `rsc.db`, not on the transaction
`tx` the function opened (the final Commit/Rollback of the empty transaction
changes nothing).  The scheduler AddTask call issued between the Services
insert and the sub-entity loops is modelled in the scheduler section. -/
def registerServiceM (fa : FailSpec) (now : Nat) (db : RegistryDB) (rec : ServiceRecord) :
    Option ServiceRecord × RegistryDB :=
  let sid := db.nextServiceId
  let s0 : WState := { db := db, step := 0, failed := false }
  let s1 := doStep fa (insServiceRowOp rec now) s0
  if s1.failed then (none, s1.db)
  else
    let s2 := regIPLoop fa sid rec.ipAddresses s1
    let s3 := regPPLoop fa sid rec.protoPort s2
    let s4 := regDetailLoop fa sid rec.details s3
    if s4.failed then (none, s4.db)
    else
      (some { rec with id := sid, created := now, updated := now
                       endOfValidity := now + rec.regLife }, s4.db)

/-- registerService on the failure-free path. -/
def registerService (now : Nat) (db : RegistryDB) (rec : ServiceRecord) :
    Option ServiceRecord × RegistryDB :=
  registerServiceM none now db rec

/-- extendServiceValidity (part_003, lines 351-399): look the record up by id,
compare only the stored Created with the supplied one (time.Equal on the
parsed instants; SystemName is scanned but never compared), and on a match set
Updated to `now` and EndOfValidity to `now + RegLife` (RegLife read from the
stored row).  Every failure path returns before the UPDATE, so the database is
returned unchanged there. -/
def extendServiceValidity (now : Nat) (db : RegistryDB) (rec : ServiceRecord) :
    Option ServiceRecord × RegistryDB :=
  match db.services.find? (fun r => r.sid == rec.id) with
  | none => (none, db)
  | some row =>
    if rec.created == row.created then
      let expirationTime := now + row.regLife
      let services' := db.services.map (fun r =>
        if r.sid == rec.id then { r with updated := now, endOfValidity := expirationTime } else r)
      (some { rec with regLife := row.regLife, endOfValidity := expirationTime },
       { db with services := services' })
    else (none, db)

/-- getIPAddresses: `SELECT IPAddress FROM IPAddresses INNER JOIN ServicesXIP
ON IPAddresses.Id = ServicesXIP.IPAddressId WHERE ServicesXIP.ServiceId = ?`. -/
def getIPAddresses (db : RegistryDB) (serviceId : Nat) : List String :=
  (db.servicesXIP.filter (fun j => j.serviceId == serviceId)).filterMap
    (fun j => (db.ipAddresses.find? (fun ip => ip.ipid == j.ipAddressId)).map
      (fun ip => ip.ipAddress))

/-- Assignment `protoPorts[proto] = port` on a Go map modelled as an
association list. -/
def upsertPort (m : List (String × Nat)) (proto : String) (port : Nat) : List (String × Nat) :=
  if m.any (fun e => e.fst == proto) then
    m.map (fun e => if e.fst == proto then (e.fst, port) else e)
  else m ++ [(proto, port)]

/-- getProtoPorts: join ProtoPorts with ServicesXPP for the service, folding
the rows into a map. -/
def getProtoPorts (db : RegistryDB) (serviceId : Nat) : List (String × Nat) :=
  ((db.servicesXPP.filter (fun j => j.serviceId == serviceId)).filterMap
    (fun j => db.protoPorts.find? (fun pp => pp.ppid == j.protoPortId))).foldl
    (fun m pp => upsertPort m pp.proto pp.port) []

/-- Statement `details[key] = append(details[key], value)` on a Go map of
slices modelled as an association list. -/
def appendDetail (m : List (String × List String)) (k v : String) :
    List (String × List String) :=
  if m.any (fun e => e.fst == k) then
    m.map (fun e => if e.fst == k then (e.fst, e.snd ++ [v]) else e)
  else m ++ [(k, [v])]

/-- getDetails: join Details with ServicesXDetails for the service, folding
the rows into a map of value lists. -/
def getDetails (db : RegistryDB) (serviceId : Nat) : List (String × List String) :=
  ((db.servicesXDetails.filter (fun j => j.serviceId == serviceId)).filterMap
    (fun j => db.detailRows.find? (fun d => d.did == j.detailId))).foldl
    (fun m d => appendDetail m d.detailKey d.detailValue) []

/-- Assemble a full ServiceRecord_v1 from a Services row plus the three
sub-entity lookups (shared shape of getRecord and getAllRecords). -/
def recordOfRow (db : RegistryDB) (row : ServiceRow) : ServiceRecord :=
  { id := row.sid, serviceDefinition := row.definition, systemName := row.systemName
    certificate := row.certificate, subPath := row.subPath, version := row.version
    created := row.created, updated := row.updated, regLife := row.regLife
    endOfValidity := row.endOfValidity, subscribeAble := row.subscribeAble
    acost := row.acost, cunit := row.cunit
    ipAddresses := getIPAddresses db row.sid
    protoPort := getProtoPorts db row.sid
    details := getDetails db row.sid }

/-- getRecord (part_003, lines 457-483): `SELECT ... FROM Services WHERE Id = ?`
then the sub-entity lookups; the record's Id field is set from the argument. -/
def getRecord (db : RegistryDB) (id : Nat) : Option ServiceRecord :=
  (db.services.find? (fun r => r.sid == id)).map
    (fun row => { recordOfRow db row with id := id })

/-- getAllRecords: every Services row, assembled with its sub-entities. -/
def getAllRecords (db : RegistryDB) : List ServiceRecord :=
  db.services.map (fun row => recordOfRow db row)

/-- Go map read `m[k]` with the zero value as default (listCurrentServices
reads `serRec.ProtoPort["http"]`, which yields 0 when the key is absent). -/
def lookupOrD (m : List (String × Nat)) (k : String) (d : Nat) : Nat :=
  match m.find? (fun e => e.fst == k) with
  | some e => e.snd
  | none => d

/-- The `metaservice` accumulation of listCurrentServices:
`key + ": " + fmt.Sprintf("%v", values) + " "` for each detail entry
(a Go slice prints as the values separated by blanks inside brackets). -/
def renderDetails (details : List (String × List String)) : String :=
  details.foldl (fun acc kv =>
    acc ++ kv.fst ++ ": " ++ "[" ++ String.intercalate " " kv.snd ++ "]" ++ " ") ""

/-- One line of listCurrentServices.  The source indexes
`serRec.IPAddresses[0]` unconditionally; on an empty slice Go panics with an
out-of-bounds fault, modelled as `none`. -/
def renderServiceLine (serRec : ServiceRecord) : Option String :=
  match serRec.ipAddresses with
  | [] => none
  | ip0 :: _ =>
    let hyperlink := "http://" ++ ip0 ++ ":" ++ toString (lookupOrD serRec.protoPort "http" 0)
      ++ "/" ++ serRec.systemName ++ "/" ++ serRec.subPath
    let uaName := (serRec.subPath.splitOn "/").headD ""
    some ("<p>Service ID: " ++ toString serRec.id ++ " with definition <b><a href=\""
      ++ hyperlink ++ "\">" ++ serRec.serviceDefinition ++ "</b></a> from the <b>"
      ++ serRec.systemName ++ "/" ++ uaName ++ "</b> with details "
      ++ renderDetails serRec.details ++ " will expire at: "
      ++ toString serRec.endOfValidity ++ "</p>")

/-- listCurrentServices (part_003, lines 402-420): render every record of
getAllRecords; `none` when any record makes the rendering fault. -/
def listCurrentServices (db : RegistryDB) : Option (List String) :=
  (getAllRecords db).mapM renderServiceLine

/-- deleteCompleteServiceById (part_003, lines 568-614): inside one
transaction, delete the three join-table row sets of the service, purge every
sub-entity row no longer referenced by its join table, and finally delete the
Services row.  The model is the committed end state. -/
def deleteCompleteServiceById (db : RegistryDB) (serviceId : Nat) : RegistryDB :=
  let sxip := db.servicesXIP.filter (fun j => j.serviceId != serviceId)
  let sxpp := db.servicesXPP.filter (fun j => j.serviceId != serviceId)
  let sxd := db.servicesXDetails.filter (fun j => j.serviceId != serviceId)
  { db with
    servicesXIP := sxip
    servicesXPP := sxpp
    servicesXDetails := sxd
    ipAddresses := db.ipAddresses.filter (fun ip => sxip.any (fun j => j.ipAddressId == ip.ipid))
    protoPorts := db.protoPorts.filter (fun pp => sxpp.any (fun j => j.protoPortId == pp.ppid))
    detailRows := db.detailRows.filter (fun d => sxd.any (fun j => j.detailId == d.did))
    services := db.services.filter (fun r => r.sid != serviceId) }

/-- checkExpiration (part_003, lines 553-565): read the record's
EndOfValidity; if the row is gone, do nothing; delete the record only when
`time.Now().After(expiration)`, i.e. when the expiration lies strictly before
now. -/
def checkExpiration (now : Nat) (db : RegistryDB) (servId : Nat) : RegistryDB :=
  match db.services.find? (fun r => r.sid == servId) with
  | none => db
  | some row =>
    if row.endOfValidity < now then deleteCompleteServiceById db servId else db

/-- The (key, value) pairs enumerated by findServices' query-building loop
over the quest's Details map. -/
def detailPairs (details : List (String × List String)) : List (String × String) :=
  details.foldl (fun acc kv => acc ++ kv.snd.map (fun v => (kv.fst, v))) []

/-- Membership of a service in findServices' detail subquery: the service has
a ServicesXDetails row whose Details row carries the given key and value. -/
def recordHasDetailRow (db : RegistryDB) (sid : Nat) (k v : String) : Bool :=
  db.servicesXDetails.any (fun j => j.serviceId == sid &&
    db.detailRows.any (fun d => d.did == j.detailId && d.detailKey == k && d.detailValue == v))

/-- findServices (part_003, lines 617-666).  The built SQL selects services
with the exact Definition and, when the quest's Details map is non-empty, with
at least one detail row matching ANY of the enumerated (key, value) pairs (the
loop joins every pair with OR, across keys as well).  A non-empty Details map
whose value lists are all empty produces a `WHERE` clause with no condition,
a SQL syntax error: the function returns an error, modelled as `none`.  Each
selected id is expanded through getRecord. -/
def findServices (db : RegistryDB) (q : ServiceQuest) : Option (List ServiceRecord) :=
  if q.details.isEmpty then
    some ((db.services.filter (fun r => r.definition == q.serviceDefinition)).filterMap
      (fun r => getRecord db r.sid))
  else if (detailPairs q.details).isEmpty then none
  else
    some ((db.services.filter (fun r => r.definition == q.serviceDefinition &&
        (detailPairs q.details).any (fun p => recordHasDetailRow db r.sid p.fst p.snd))).filterMap
      (fun r => getRecord db r.sid))

/-- Claim C3 comparator, written after the specification's words: a record
matches when its service definition matches exactly and, for every key of the
required details, at least one required value of that key appears among the
record's values for that key (disjunction within a key, conjunction across
keys). -/
def findServicesClaim (db : RegistryDB) (q : ServiceQuest) : List ServiceRecord :=
  (getAllRecords db).filter (fun rec =>
    rec.serviceDefinition == q.serviceDefinition &&
    q.details.all (fun kv => kv.snd.any (fun v =>
      match rec.details.find? (fun e => e.fst == kv.fst) with
      | some e => e.snd.contains v
      | none => false)))

/-!
HTTP-level handlers of sregistrar/serviceregistrar.go.  Only the store-visible
behaviour is modelled: a handler maps the request and the registrar state
(leading flag plus database) to a response kind and the successor state.
-/

/-- Observable outcome of a register/renew request: the early 503 "Service
Unavailable" write-off on a standby instance, or the 200 reply. -/
inductive WriteResult
  | unavailable
  | okResp
deriving Repr, DecidableEq

/-- Registrar state touched by the handlers. -/
structure RegistrarState where
  leading : Bool
  db : RegistryDB
deriving Repr, DecidableEq

/-- updateDB (serviceregistrar.go, lines 109-175): refuse with 503 when not
leading; otherwise register fresh records (Id = 0) and renew others, falling
back to a fresh registration when the renewal fails; the reply is 200 in every
processed case (store errors are only logged). -/
def updateDB (now : Nat) (s : RegistrarState) (rec : ServiceRecord) :
    WriteResult × RegistrarState :=
  if !s.leading then (.unavailable, s)
  else if rec.id == 0 then
    (.okResp, { s with db := (registerServiceM none now s.db rec).snd })
  else
    match extendServiceValidity now s.db rec with
    | (some _, db') => (.okResp, { s with db := db' })
    | (none, _) => (.okResp, { s with db := (registerServiceM none now s.db rec).snd })

/-- cleanDB (serviceregistrar.go, lines 261-279): unregister by id.  The
handler performs the delete without consulting the leading flag (it also
removes the scheduler task, modelled in the scheduler section). -/
def cleanDB (s : RegistrarState) (id : Nat) : RegistrarState :=
  { s with db := deleteCompleteServiceById s.db id }

/-- queryDB, GET branch: the browser listing. -/
def queryDBGet (s : RegistrarState) : Option (List String) :=
  listCurrentServices s.db

/-- queryDB, POST branch: attribute-filtered discovery. -/
def queryDBFind (s : RegistrarState) (q : ServiceQuest) : Option (List ServiceRecord) :=
  findServices s.db q

/-!
Expiration scheduler (part_001).  A cleaningTask holds a deadline and the
record id; the Job closure is the checkExpiration call modelled above, so the
task value carries only the data fields.  AddTask sends the task to the worker,
which pushes it onto the container/heap min-heap: append, then sift up.
-/

/-- cleaningTask (deadline and record id; the Job closure is checkExpiration
for the id and is modelled by `checkExpiration`). -/
structure CleaningTask where
  deadline : Nat
  id : Nat
deriving Repr, DecidableEq

/-- Swap of two queue slots (cleaningQueue.Swap). -/
def cqSwap (cq : List CleaningTask) (i j : Nat) : List CleaningTask :=
  match cq[i]?, cq[j]? with
  | some a, some b => (cq.set i b).set j a
  | _, _ => cq

/-- container/heap's up-sift after an append: while the new element's deadline
is strictly sooner than its parent's (cleaningQueue.Less), swap it upward. -/
def siftUp (cq : List CleaningTask) (j : Nat) : List CleaningTask :=
  if j = 0 then cq
  else
    match cq[(j - 1) / 2]?, cq[j]? with
    | some ti, some tj =>
      if tj.deadline < ti.deadline then siftUp (cqSwap cq ((j - 1) / 2) j) ((j - 1) / 2)
      else cq
    | _, _ => cq
termination_by j
decreasing_by
  have := Nat.div_le_self (j - 1) 2
  omega

/-- heap.Push on the cleaningQueue: append the task, sift it up. -/
def heapPush (cq : List CleaningTask) (t : CleaningTask) : List CleaningTask :=
  siftUp (cq ++ [t]) cq.length

/-- Scheduler.AddTask (part_001, lines 77-84) as observed on the worker's
queue: the received task is pushed onto the heap (run, line 118); no lookup by
id takes place. -/
def AddTask (cq : List CleaningTask) (deadline : Nat) (id : Nat) : List CleaningTask :=
  heapPush cq { deadline := deadline, id := id }

/-- Number of queued tasks carrying a given record id. -/
def countId (cq : List CleaningTask) (id : Nat) : Nat :=
  (cq.filter (fun t => t.id == id)).length

/-!
Leader coordination (serviceregistrar.go, Role).  Each tick polls the peers in
order; the model captures one tick given each peer's poll outcome.
-/

/-- Outcome of `http.Get(peer + "/status")` followed by the status-code
switch: a transport error, a 200 (the peer leads), a 503 (standby), or any
other status code. -/
inductive PollResult
  | transportError
  | okLeading
  | unavailable
  | otherStatus
deriving Repr, DecidableEq

/-- The coordinator-owned registrar fields: leading, leadingSince
(time.Time{} modelled as `none`) and leadingRegistrar. -/
structure PeerView where
  leading : Bool
  leadingSince : Option Nat
  leadingPeer : Option String
deriving Repr, DecidableEq

/-- The peer loop of one Role tick.  A transport error exits the loop
(`break`); a 200 adopts the peer as leader, sets standby and exits
(`break foundLead`); a 503 or an unexpected status moves to the next peer.
Returns the standby flag and the possibly updated view. -/
def scanPeers : List (String × PollResult) → PeerView → Bool × PeerView
  | [], pv => (false, pv)
  | (u, res) :: rest, pv =>
    match res with
    | .transportError => (false, pv)
    | .okLeading => (true, { leading := false, leadingSince := none, leadingPeer := some u })
    | .unavailable => scanPeers rest pv
    | .otherStatus => scanPeers rest pv

/-- One tick of Role (serviceregistrar.go, lines 303-343): run the peer loop,
then promote the local instance when no scanned peer leads and it is not
already leading. -/
def roleTick (now : Nat) (pv : PeerView) (peers : List (String × PollResult)) : PeerView :=
  let sp := scanPeers peers pv
  if !sp.fst && !sp.snd.leading then
    { leading := true, leadingSince := some now, leadingPeer := none }
  else sp.snd

/-- The first peer answering 200 before any transport error stops the scan:
the leader the code's loop can actually observe in one tick. -/
def firstLeadingScan : List (String × PollResult) → Option String
  | [] => none
  | (_, .transportError) :: _ => none
  | (u, .okLeading) :: _ => some u
  | _ :: rest => firstLeadingScan rest

/-- The first peer answering 200 anywhere in the list: the leader a full scan
of every configured peer would observe. -/
def firstLeadingAll : List (String × PollResult) → Option String
  | [] => none
  | (u, .okLeading) :: _ => some u
  | _ :: rest => firstLeadingAll rest

/-- Claim C7 comparator, written after the specification's words: every
configured peer is polled; any peer responding Leading is adopted (the first
one, scanning stops there); self-promotion happens only when the instance is
not already leading and every peer either errored, responded Standby, or
returned an unexpected status. -/
def roleTickClaim (now : Nat) (pv : PeerView) (peers : List (String × PollResult)) : PeerView :=
  match firstLeadingAll peers with
  | some u => { leading := false, leadingSince := none, leadingPeer := some u }
  | none => if pv.leading then pv else
      { leading := true, leadingSince := some now, leadingPeer := none }

/-!
Concrete inputs used by the closed theorems below.
-/

/-- The registration record of the spec's scenario 1. -/
def exRec : ServiceRecord :=
  { id := 0, serviceDefinition := "temperature", systemName := "sensor_A"
    certificate := "", subPath := "t", version := "1"
    created := 0, updated := 0, regLife := 60, endOfValidity := 0
    subscribeAble := false, acost := 0, cunit := ""
    ipAddresses := ["10.0.0.5"], protoPort := [("http", 8080)]
    details := [("Location", ["Kitchen"])] }

/-- A stored record used by the concrete renewal/expiry/unregister theorems:
id 1, definition "a", sub-path "p", created at 5, valid until 10. -/
def exRow : ServiceRow :=
  { sid := 1, definition := "a", systemName := "sysX", certificate := ""
    subPath := "p", version := "1", created := 5, updated := 5, regLife := 5
    endOfValidity := 10, subscribeAble := false, acost := 0, cunit := "" }

/-- A database holding exactly the record above. -/
def exDB : RegistryDB := { emptyDB with services := [exRow], nextServiceId := 2 }

/-- A renewal request matching the stored row only on id and created, with a
different service definition and sub-path. -/
def exRecMismatch : ServiceRecord :=
  { exRec with id := 1, serviceDefinition := "b", subPath := "q", created := 5 }

/-- A well-matched renewal request for the stored row. -/
def exRecRenew : ServiceRecord := { exRec with id := 1, created := 5 }

/-- A standby registrar instance holding the example record. -/
def exStandby : RegistrarState := { leading := false, db := exDB }

/-- A database with one service (id 1, definition "d") carrying the single
detail Location=Kitchen. -/
def exDB3 : RegistryDB :=
  { emptyDB with
    services := [{ exRow with sid := 1, definition := "d" }]
    detailRows := [{ did := 1, detailKey := "Location", detailValue := "Kitchen" }]
    servicesXDetails := [{ serviceId := 1, detailId := 1 }]
    nextServiceId := 2, nextDetailId := 2 }

/-- A quest whose required details span two keys, of which the stored record
satisfies only the first. -/
def exQuest2 : ServiceQuest :=
  { serviceDefinition := "d"
    details := [("Location", ["Kitchen"]), ("Floor", ["Ground"])] }

/-- A quest whose details map is non-empty while every value list is empty. -/
def exQuestEmptyVals : ServiceQuest :=
  { serviceDefinition := "d", details := [("Location", [])] }

/-- A standby view that knows no leader. -/
def exPV : PeerView := { leading := false, leadingSince := none, leadingPeer := none }

/-- Two configured peers: the first unreachable, the second leading. -/
def exPeers : List (String × PollResult) :=
  [("http://a", .transportError), ("http://b", .okLeading)]

/-- A registration request with an empty ip_addresses sequence. -/
def exRecNoIP : ServiceRecord := { exRec with ipAddresses := [] }

/-- The database produced by registering the address-less record. -/
def exDB10 : RegistryDB := (registerServiceM none 7 emptyDB exRecNoIP).snd

/-- The record the scenario registration returns on the fresh database at
instant 5 with reg_life 60. -/
def exReg1 : ServiceRecord :=
  { exRec with id := 1, created := 5, updated := 5, endOfValidity := 65 }

/-!
Helper lemmas.
-/

/-- find? skips a prefix on which the predicate is everywhere false. -/
theorem find?_append_of_all_false {α : Type} (p : α → Bool) (l1 l2 : List α)
    (h : ∀ x ∈ l1, p x = false) : (l1 ++ l2).find? p = l2.find? p := by
  induction l1 with
  | nil => rfl
  | cons a t ih =>
    have ha := h a (by simp)
    simp only [List.cons_append, List.find?_cons, ha]
    exact ih (fun x hx => h x (by simp [hx]))

/-- find? succeeds when some member satisfies the predicate. -/
theorem find?_isSome_of_mem {α : Type} (p : α → Bool) (l : List α) (x : α)
    (hx : x ∈ l) (hp : p x = true) : (l.find? p).isSome = true := by
  induction l with
  | nil => cases hx
  | cons a t ih =>
    rcases List.mem_cons.1 hx with h | h
    · subst h; simp [List.find?_cons, hp]
    · cases hpa : p a with
      | true => simp [List.find?_cons, hpa]
      | false => simpa [List.find?_cons, hpa] using ih h

/-- C1: the specification says Insert is all-or-nothing, and the claim that a
failed sub-entity write leaves no Services row matches the clear intent of the
code (registerService opens a transaction and commits or rolls it back), but
the statements are executed through `rsc.db.Exec` instead of `tx.Exec`: when
the very first sub-entity write (the IPAddresses insert, step 1) fails, the
function returns an error while the Services row written at step 0 stays
committed, with no join-table or sub-entity row for it. -/
theorem registerService_failed_subwrite_keeps_row :
    (registerServiceM (some 1) 5 emptyDB exRec).fst = none ∧
    (registerServiceM (some 1) 5 emptyDB exRec).snd.services = [regRow exRec 5 1] ∧
    (registerServiceM (some 1) 5 emptyDB exRec).snd.ipAddresses = [] ∧
    (registerServiceM (some 1) 5 emptyDB exRec).snd.servicesXIP = [] ∧
    (registerServiceM (some 1) 5 emptyDB exRec).snd.protoPorts = [] ∧
    (registerServiceM (some 1) 5 emptyDB exRec).snd.detailRows = [] := by
  refine ⟨rfl, rfl, rfl, rfl, rfl, rfl⟩

/-!
Scheduler claims.
-/

/-- countId distributes over cons. -/
theorem countId_cons (a : CleaningTask) (t : List CleaningTask) (n : Nat) :
    countId (a :: t) n = (if a.id == n then 1 else 0) + countId t n := by
  simp only [countId, List.filter_cons]
  cases h : a.id == n with
  | true => simp only [if_pos, List.length_cons]; omega
  | false => simp

/-- Setting a slot trades its old occupant's contribution for the new one's. -/
theorem countId_set (l : List CleaningTask) (i : Nat) (x a : CleaningTask) (n : Nat)
    (h : l[i]? = some a) :
    countId (l.set i x) n + (if a.id == n then 1 else 0)
      = countId l n + (if x.id == n then 1 else 0) := by
  induction l generalizing i with
  | nil => simp at h
  | cons b t ih =>
    cases i with
    | zero =>
      simp only [List.getElem?_cons_zero, Option.some_inj] at h
      subst h
      simp only [List.set_cons_zero, countId_cons]
      omega
    | succ k =>
      simp only [List.getElem?_cons_succ] at h
      simp only [List.set_cons_succ, countId_cons]
      have := ih k h
      omega

/-- cleaningQueue.Swap preserves the per-id census. -/
theorem countId_cqSwap (l : List CleaningTask) (i j : Nat) (n : Nat) (hij : i ≠ j) :
    countId (cqSwap l i j) n = countId l n := by
  unfold cqSwap
  cases hi : l[i]? with
  | none => rfl
  | some a =>
    cases hj : l[j]? with
    | none => rfl
    | some b =>
      show countId ((l.set i b).set j a) n = countId l n
      have h1 := countId_set l i b a n hi
      have hj' : (l.set i b)[j]? = some b := by
        rw [List.getElem?_set_ne hij]; exact hj
      have h2 := countId_set (l.set i b) j a b n hj'
      omega

/-- The up-sift only permutes slots: the per-id census is unchanged. -/
theorem countId_siftUp (n : Nat) :
    ∀ (j : Nat) (cq : List CleaningTask), countId (siftUp cq j) n = countId cq n := by
  intro j
  induction j using Nat.strong_induction_on with
  | _ j ih =>
    intro cq
    rw [siftUp]
    split
    · rfl
    · rename_i hj
      split
      · rename_i ti tj hti htj
        split
        · rw [ih ((j - 1) / 2) (by have := Nat.div_le_self (j - 1) 2; omega)]
          exact countId_cqSwap cq ((j - 1) / 2) j n
            (by have := Nat.div_le_self (j - 1) 2; omega)
        · rfl
      · rfl

/-- C5 amended: Scheduler.AddTask unconditionally pushes a fresh task onto the
heap; the number of queued tasks carrying any record id grows by exactly one
when that id is the added one and is unchanged otherwise — no existing task
for the id is replaced or removed. -/
theorem AddTask_appends_never_supersedes (cq : List CleaningTask) (d id n : Nat) :
    countId (AddTask cq d id) n = countId cq n + (if id == n then 1 else 0) := by
  unfold AddTask heapPush
  rw [countId_siftUp]
  simp only [countId, List.filter_append, List.length_append]
  cases h : id == n with
  | true => simp [List.filter, h]
  | false => simp [List.filter, h]

/-- C5 counterexample: two AddTask calls for record id 7 (as issued by a
register followed by a renew) leave two live tasks with id 7 in the queue; the
second call does not replace the first task's deadline. -/
theorem AddTask_duplicate_id_tasks :
    AddTask (AddTask [] 50 7) 90 7 = [⟨50, 7⟩, ⟨90, 7⟩] ∧
    countId (AddTask (AddTask [] 50 7) 90 7) 7 = 2 := by
  have h1 : AddTask [] 50 7 = [⟨50, 7⟩] := by
    unfold AddTask heapPush
    rw [siftUp]
    simp
  have h2 : AddTask [⟨50, 7⟩] 90 7 = [⟨50, 7⟩, ⟨90, 7⟩] := by
    unfold AddTask heapPush
    rw [siftUp]
    norm_num
  rw [h1, h2]
  exact ⟨rfl, rfl⟩

/-!
Coordinator claims.
-/

/-- The peer loop adopts the first peer answering 200 reached before any
transport error, and otherwise leaves the view untouched with the standby flag
down. -/
theorem scanPeers_eq (peers : List (String × PollResult)) (pv : PeerView) :
    scanPeers peers pv =
      match firstLeadingScan peers with
      | some u => (true, { leading := false, leadingSince := none, leadingPeer := some u })
      | none => (false, pv) := by
  induction peers with
  | nil => rfl
  | cons p rest ih =>
    obtain ⟨u, res⟩ := p
    cases res <;> simp [scanPeers, firstLeadingScan, ih]

/-- C7 amended: on a Role tick the code adopts the first peer answering 200
that the loop reaches, but the loop stops not only there: a transport error
also ends the scan (remaining peers are never polled).  The instance
promotes itself exactly when the scan so truncated saw no Leading peer and
the instance is not already leading; when it is already leading and no
Leading peer was seen, the view is unchanged. -/
theorem roleTick_characterization (now : Nat) (pv : PeerView)
    (peers : List (String × PollResult)) :
    roleTick now pv peers =
      match firstLeadingScan peers with
      | some u => { leading := false, leadingSince := none, leadingPeer := some u }
      | none =>
        if pv.leading then pv
        else { leading := true, leadingSince := some now, leadingPeer := none } := by
  unfold roleTick
  rw [scanPeers_eq]
  cases h : firstLeadingScan peers with
  | some u => simp
  | none => cases hpv : pv.leading <;> simp [hpv]



/-- C7 counterexample: with peer a unreachable and peer b answering Leading,
the code's tick promotes the local instance (the transport error broke the
loop before peer b was polled), whereas the claim requires every peer to be
polled — under which peer b's Leading answer would have been adopted, as the
comparator built from the claim's words shows. -/
theorem roleTick_promotes_despite_leading_peer :
    roleTick 3 exPV exPeers
      = { leading := true, leadingSince := some 3, leadingPeer := none } ∧
    roleTickClaim 3 exPV exPeers
      = { leading := false, leadingSince := none, leadingPeer := some "http://b" } :=
  ⟨rfl, rfl⟩

/-!
Delete, expiration and renewal claims.
-/

/-- C9: deleteCompleteServiceById leaves no Services row for the id, no
join-table row referencing the id, and no orphan sub-entity row: every
surviving IPAddresses, ProtoPorts and Details row is still referenced by a
surviving row of its join table (the source deletes the three join-table row
sets first, purges the now-unreferenced sub-entity rows, and removes the
Services row last, all inside one committed transaction). -/
theorem deleteCompleteServiceById_no_orphans (db : RegistryDB) (sid : Nat) :
    ((deleteCompleteServiceById db sid).services.all (fun r => r.sid != sid)) = true ∧
    ((deleteCompleteServiceById db sid).servicesXIP.all (fun j => j.serviceId != sid)) = true ∧
    ((deleteCompleteServiceById db sid).servicesXPP.all (fun j => j.serviceId != sid)) = true ∧
    ((deleteCompleteServiceById db sid).servicesXDetails.all (fun j => j.serviceId != sid)) = true ∧
    ((deleteCompleteServiceById db sid).ipAddresses.all (fun ip =>
      (deleteCompleteServiceById db sid).servicesXIP.any
        (fun j => j.ipAddressId == ip.ipid))) = true ∧
    ((deleteCompleteServiceById db sid).protoPorts.all (fun pp =>
      (deleteCompleteServiceById db sid).servicesXPP.any
        (fun j => j.protoPortId == pp.ppid))) = true ∧
    ((deleteCompleteServiceById db sid).detailRows.all (fun d =>
      (deleteCompleteServiceById db sid).servicesXDetails.any
        (fun j => j.detailId == d.did))) = true := by
  refine ⟨?_, ?_, ?_, ?_, ?_, ?_, ?_⟩
  · rw [List.all_eq_true]; intro x hx
    exact (List.mem_filter.mp
      (show x ∈ db.services.filter (fun r => r.sid != sid) from hx)).2
  · rw [List.all_eq_true]; intro x hx
    exact (List.mem_filter.mp
      (show x ∈ db.servicesXIP.filter (fun j => j.serviceId != sid) from hx)).2
  · rw [List.all_eq_true]; intro x hx
    exact (List.mem_filter.mp
      (show x ∈ db.servicesXPP.filter (fun j => j.serviceId != sid) from hx)).2
  · rw [List.all_eq_true]; intro x hx
    exact (List.mem_filter.mp
      (show x ∈ db.servicesXDetails.filter (fun j => j.serviceId != sid) from hx)).2
  · rw [List.all_eq_true]; intro x hx
    exact (List.mem_filter.mp
      (show x ∈ db.ipAddresses.filter (fun ip =>
        (db.servicesXIP.filter (fun j => j.serviceId != sid)).any
          (fun j => j.ipAddressId == ip.ipid)) from hx)).2
  · rw [List.all_eq_true]; intro x hx
    exact (List.mem_filter.mp
      (show x ∈ db.protoPorts.filter (fun pp =>
        (db.servicesXPP.filter (fun j => j.serviceId != sid)).any
          (fun j => j.protoPortId == pp.ppid)) from hx)).2
  · rw [List.all_eq_true]; intro x hx
    exact (List.mem_filter.mp
      (show x ∈ db.detailRows.filter (fun d =>
        (db.servicesXDetails.filter (fun j => j.serviceId != sid)).any
          (fun j => j.detailId == d.did)) from hx)).2

/-- C8 amended: checkExpiration deletes the record exactly when a stored row
with the id exists and its EndOfValidity lies strictly before `now`
(`time.Now().After(expiration)`); a row whose EndOfValidity equals `now` or
lies later, or an absent row, leaves the database unchanged. -/
theorem checkExpiration_strict (now : Nat) (db : RegistryDB) (id : Nat)
    (hnodup : (db.services.map (fun r => r.sid)).Nodup) :
    checkExpiration now db id =
      if db.services.any (fun r => r.sid == id && decide (r.endOfValidity < now)) then
        deleteCompleteServiceById db id
      else db := by
  unfold checkExpiration
  cases hfind : db.services.find? (fun r => r.sid == id) with
  | none =>
    have hall : ∀ r ∈ db.services, ¬((fun r => r.sid == id) r = true) :=
      List.find?_eq_none.mp hfind
    rw [if_neg]
    intro hany
    obtain ⟨r, hr, hp⟩ := List.any_eq_true.mp hany
    have hp' : (r.sid == id) = true ∧ r.endOfValidity < now := by simpa using hp
    exact hall r hr hp'.1
  | some row =>
    have hprow : (row.sid == id) = true := by
      have := List.find?_some hfind
      simpa using this
    have hmem : row ∈ db.services := List.mem_of_find?_eq_some hfind
    show (if row.endOfValidity < now then deleteCompleteServiceById db id else db) = _
    by_cases hexp : row.endOfValidity < now
    · rw [if_pos hexp, if_pos]
      exact List.any_eq_true.mpr ⟨row, hmem, by simp [hprow, hexp]⟩
    · rw [if_neg hexp, if_neg]
      intro hany
      obtain ⟨r, hr, hp⟩ := List.any_eq_true.mp hany
      have hp' : (r.sid == id) = true ∧ r.endOfValidity < now := by simpa using hp
      have hrid : r.sid = id := by simpa using hp'.1
      have hrowid : row.sid = id := by simpa using hprow
      have hre : r = row :=
        List.inj_on_of_nodup_map hnodup hr hmem (by rw [hrid, hrowid])
      exact hexp (hre ▸ hp'.2)



/-- C8 counterexample: a callback firing exactly at the record's
EndOfValidity leaves the store unchanged although the claim calls for
deletion whenever EndOfValidity is not later than now:
`time.Now().After(expiration)` is false at equality. -/
theorem checkExpiration_keeps_record_at_boundary :
    exRow.endOfValidity = 10 ∧
    exDB.services = [exRow] ∧
    checkExpiration 10 exDB 1 = exDB :=
  ⟨rfl, rfl, rfl⟩

/-- Witness for the amended C8 theorem: a record one instant past its
EndOfValidity is deleted. -/
theorem checkExpiration_strict_witness :
    (exDB.services.map (fun r => r.sid)).Nodup ∧
    checkExpiration 11 exDB 1 = deleteCompleteServiceById exDB 1 := by
  refine ⟨by decide, ?_⟩
  rw [checkExpiration_strict 11 exDB 1 (by decide)]
  rfl

/-- C4 amended: extendServiceValidity succeeds iff a stored row with the
supplied id exists whose Created instant equals the supplied record's Created
(time.Equal on the parsed timestamps); the service definition, sub-path and
system name are never compared (SystemName is scanned but unused).  On every
failure path the database is returned unchanged. -/
theorem extendServiceValidity_checks_created_only (now : Nat) (db : RegistryDB)
    (rec : ServiceRecord) (hnodup : (db.services.map (fun r => r.sid)).Nodup) :
    ((extendServiceValidity now db rec).fst.isSome = true ↔
      ∃ row ∈ db.services, row.sid = rec.id ∧ row.created = rec.created) ∧
    ((extendServiceValidity now db rec).fst = none →
      (extendServiceValidity now db rec).snd = db) := by
  unfold extendServiceValidity
  split
  · rename_i hfind
    have hall := List.find?_eq_none.mp hfind
    constructor
    · constructor
      · intro h; simp at h
      · rintro ⟨row, hrow, hsid, -⟩
        have : (row.sid == rec.id) = true := by simpa using hsid
        exact absurd this (by simpa using hall row hrow)
    · intro _; rfl
  · rename_i row hfind
    have hprow : (row.sid == rec.id) = true := by
      have := List.find?_some hfind; simpa using this
    have hmem : row ∈ db.services := List.mem_of_find?_eq_some hfind
    split
    · rename_i hc
      constructor
      · constructor
        · intro _
          exact ⟨row, hmem, by simpa using hprow,
            (show rec.created = row.created by simpa using hc).symm⟩
        · intro _; rfl
      · intro h; simp at h
    · rename_i hc
      constructor
      · constructor
        · intro h; simp at h
        · rintro ⟨row', hrow', hsid', hcr'⟩
          have hrowid : row.sid = rec.id := by simpa using hprow
          have hre : row' = row :=
            List.inj_on_of_nodup_map hnodup hrow' hmem (by rw [hsid', hrowid])
          exact absurd (show (rec.created == row.created) = true by
            simp [← hre ▸ hcr']) (by simpa using hc)
      · intro _; rfl


/-- C4 counterexample: a renewal whose service definition and sub-path both
differ from the stored row (only id and created match) succeeds, while the
claim requires any mismatch among (id, service_definition, sub_path, created)
to fail the renewal. -/
theorem extendServiceValidity_ignores_definition_subpath :
    exDB.services = [exRow] ∧
    exRecMismatch.serviceDefinition ≠ exRow.definition ∧
    exRecMismatch.subPath ≠ exRow.subPath ∧
    (extendServiceValidity 20 exDB exRecMismatch).fst.isSome = true := by
  refine ⟨rfl, by decide, by decide, rfl⟩


/-- Witness for the amended C4 theorem at a concrete matching renewal. -/
theorem extendServiceValidity_checks_created_only_witness :
    (exDB.services.map (fun r => r.sid)).Nodup ∧
    (extendServiceValidity 20 exDB exRecRenew).fst.isSome = true :=
  ⟨by decide,
    (extendServiceValidity_checks_created_only 20 exDB exRecRenew (by decide)).1.mpr
      ⟨exRow, by simp [exDB], rfl, rfl⟩⟩

/-!
Handler-level claims.
-/


/-- C6 counterexample: an unregister request reaching a standby instance is
served and mutates the store (cleanDB never consults the leading flag),
while the claim requires it to fail with NotLeader and leave the store
unchanged. -/
theorem cleanDB_served_on_standby :
    exStandby.leading = false ∧
    exStandby.db.services = [exRow] ∧
    (cleanDB exStandby 1).db.services = [] :=
  ⟨rfl, rfl, rfl⟩

/-- C6 amended: on a standby instance, register and renew (updateDB) are
refused with the 503 reply before touching the store, while unregister
(cleanDB) and both query paths are served exactly as on a leading instance,
regardless of the role. -/
theorem standby_gates_updateDB_only (now : Nat) (s : RegistrarState) (rec : ServiceRecord)
    (id : Nat) (q : ServiceQuest) (h : s.leading = false) :
    updateDB now s rec = (WriteResult.unavailable, s) ∧
    (cleanDB s id).db = deleteCompleteServiceById s.db id ∧
    queryDBFind s q = findServices s.db q ∧
    queryDBGet s = listCurrentServices s.db := by
  refine ⟨?_, rfl, rfl, rfl⟩
  unfold updateDB
  rw [h]
  simp

/-- Witness for the amended C6 theorem on the concrete standby instance. -/
theorem standby_gates_updateDB_only_witness :
    exStandby.leading = false ∧
    updateDB 0 exStandby exRec = (WriteResult.unavailable, exStandby) :=
  ⟨rfl, (standby_gates_updateDB_only 0 exStandby exRec 1 ⟨"d", []⟩ rfl).1⟩

/-!
Discovery claims.
-/

/-- getRecord succeeds for the id of any stored row. -/
theorem getRecord_isSome_of_mem (db : RegistryDB) (row : ServiceRow)
    (h : row ∈ db.services) : (getRecord db row.sid).isSome = true := by
  unfold getRecord
  rw [Option.isSome_map']
  exact find?_isSome_of_mem (fun r => r.sid == row.sid) db.services row h (by simp)

/-- Expanding a list of stored rows through getRecord yields one record per
row, carrying exactly the row's id. -/
theorem map_id_filterMap_getRecord (db : RegistryDB) (rows : List ServiceRow)
    (h : ∀ r ∈ rows, r ∈ db.services) :
    (rows.filterMap (fun r => getRecord db r.sid)).map (fun x => x.id)
      = rows.map (fun r => r.sid) := by
  induction rows with
  | nil => rfl
  | cons a t ih =>
    have ha : a ∈ db.services := h a (by simp)
    cases hg : getRecord db a.sid with
    | none =>
      exfalso
      have hs := getRecord_isSome_of_mem db a ha
      rw [hg] at hs
      simp at hs
    | some rcd =>
      have hid : rcd.id = a.sid := by
        unfold getRecord at hg
        cases hf : db.services.find? (fun r => r.sid == a.sid) with
        | none => rw [hf] at hg; simp at hg
        | some row =>
          rw [hf] at hg
          simp only [Option.map_some', Option.some_inj] at hg
          rw [← hg]
      simp only [List.filterMap_cons, hg, List.map_cons, hid]
      rw [ih (fun r hr => h r (by simp [hr]))]

/-- C3 amended: findServices returns exactly the records whose Definition
matches and — when the quest enumerates at least one (key, value) pair —
which own at least one detail row equal to SOME quest pair: the pairs of all
keys are joined by OR, so the match is disjunctive across keys as well as
within a key.  An empty details map matches on Definition alone, and a
non-empty details map whose value lists are all empty makes the built SQL
malformed, failing the call. -/
theorem findServices_disjunctive_match (db : RegistryDB) (q : ServiceQuest) :
    (findServices db q = none ↔
      (q.details.isEmpty = false ∧ (detailPairs q.details).isEmpty = true)) ∧
    (∀ l, findServices db q = some l →
      l.map (fun r => r.id) =
        (db.services.filter (fun r => r.definition == q.serviceDefinition &&
          (q.details.isEmpty ||
            (detailPairs q.details).any
              (fun p => recordHasDetailRow db r.sid p.fst p.snd)))).map
          (fun r => r.sid)) := by
  unfold findServices
  by_cases h1 : q.details.isEmpty = true
  · rw [if_pos h1]
    constructor
    · simp [h1]
    · intro l hl
      rw [Option.some_inj] at hl
      subst hl
      rw [map_id_filterMap_getRecord db _ (fun r hr => List.mem_of_mem_filter hr)]
      have : db.services.filter (fun r => r.definition == q.serviceDefinition) =
          db.services.filter (fun r => r.definition == q.serviceDefinition &&
            (q.details.isEmpty ||
              (detailPairs q.details).any
                (fun p => recordHasDetailRow db r.sid p.fst p.snd))) :=
        List.filter_congr (fun r _ => by rw [h1]; simp)
      rw [this]
  · rw [if_neg h1]
    by_cases h2 : (detailPairs q.details).isEmpty = true
    · rw [if_pos h2]
      constructor
      · constructor
        · intro _
          exact ⟨Bool.eq_false_iff.mpr (fun hc => h1 hc), h2⟩
        · intro _; rfl
      · intro l hl; exact absurd hl (by simp)
    · rw [if_neg h2]
      constructor
      · constructor
        · intro hc; exact absurd hc (by simp)
        · rintro ⟨-, hc⟩; exact absurd hc h2
      · intro l hl
        rw [Option.some_inj] at hl
        subst hl
        rw [map_id_filterMap_getRecord db _ (fun r hr => List.mem_of_mem_filter hr)]
        have : db.services.filter (fun r => r.definition == q.serviceDefinition &&
            (detailPairs q.details).any
              (fun p => recordHasDetailRow db r.sid p.fst p.snd)) =
            db.services.filter (fun r => r.definition == q.serviceDefinition &&
              (q.details.isEmpty ||
                (detailPairs q.details).any
                  (fun p => recordHasDetailRow db r.sid p.fst p.snd))) :=
          List.filter_congr (fun r _ => by
            rw [Bool.eq_false_iff.mpr (fun hc => h1 hc)]
            simp)
        rw [this]



/-- C3 counterexample: the stored record carries Location=Kitchen but no
Floor detail at all, so under the claim's conjunction across keys it must not
match the two-key quest — the comparator built from the claim's words returns
the empty list — yet findServices returns it: the generated SQL ORs the
(key, value) pairs of different keys together. -/
theorem findServices_matches_across_keys_disjunctively :
    ((findServices exDB3 exQuest2).map (fun l => l.map (fun r => r.id))) = some [1] ∧
    findServicesClaim exDB3 exQuest2 = [] :=
  ⟨rfl, rfl⟩


/-- Witness for the amended C3 theorem: the malformed-query case fails. -/
theorem findServices_disjunctive_match_witness :
    findServices exDB3 exQuestEmptyVals = none :=
  (findServices_disjunctive_match exDB3 exQuestEmptyVals).1.mpr ⟨rfl, rfl⟩

/-!
Registration happy path.
-/

/-- doStep with no injected failure never raises the failed flag. -/
theorem doStep_none_failed (op : RegistryDB → RegistryDB) (s : WState) :
    (doStep none op s).failed = s.failed := by
  unfold doStep
  cases hf : s.failed with
  | true => simp [hf]
  | false => simp [hf]

/-- doStep leaves untouched any database component its operation preserves. -/
theorem doStep_proj {α : Type} (P : RegistryDB → α) (fa : FailSpec)
    (op : RegistryDB → RegistryDB) (s : WState) (h : ∀ d, P (op d) = P d) :
    P (doStep fa op s).db = P s.db := by
  unfold doStep
  by_cases h1 : s.failed = true
  · rw [if_pos h1]
  · rw [if_neg h1]
    by_cases h2 : (none : FailSpec) = some s.step
    · exact absurd h2 (by simp)
    · by_cases h3 : fa = some s.step
      · rw [if_pos h3]
      · rw [if_neg h3]
        exact h s.db

/-- The IP loop touches only the IPAddresses and ServicesXIP tables. -/
theorem regIPLoop_proj {α : Type} (P : RegistryDB → α) (fa : FailSpec) (sid : Nat)
    (l : List String) (s : WState)
    (h1 : ∀ a d, P (insIPOp a d) = P d)
    (h2 : ∀ a b d, P (insSxIPOp a b d) = P d) :
    P (regIPLoop fa sid l s).db = P s.db := by
  induction l generalizing s with
  | nil => rfl
  | cons a t ih =>
    simp only [regIPLoop]
    rw [ih, doStep_proj P fa _ _ (h2 sid _), doStep_proj P fa _ _ (h1 a)]

/-- The proto-port loop touches only the ProtoPorts and ServicesXPP tables. -/
theorem regPPLoop_proj {α : Type} (P : RegistryDB → α) (fa : FailSpec) (sid : Nat)
    (l : List (String × Nat)) (s : WState)
    (h1 : ∀ a b d, P (insPPOp a b d) = P d)
    (h2 : ∀ a b d, P (insSxPPOp a b d) = P d) :
    P (regPPLoop fa sid l s).db = P s.db := by
  induction l generalizing s with
  | nil => rfl
  | cons a t ih =>
    simp only [regPPLoop]
    rw [ih, doStep_proj P fa _ _ (h2 sid _), doStep_proj P fa _ _ (h1 a.fst a.snd)]

/-- The detail value loop touches only the Details and ServicesXDetails
tables. -/
theorem regDetailValues_proj {α : Type} (P : RegistryDB → α) (fa : FailSpec) (sid : Nat)
    (key : String) (l : List String) (s : WState)
    (h1 : ∀ a b d, P (insDetailOp a b d) = P d)
    (h2 : ∀ a b d, P (insSxDOp a b d) = P d) :
    P (regDetailValues fa sid key l s).db = P s.db := by
  induction l generalizing s with
  | nil => rfl
  | cons v t ih =>
    simp only [regDetailValues]
    rw [ih, doStep_proj P fa _ _ (h2 sid _), doStep_proj P fa _ _ (h1 key v)]

/-- The detail loop touches only the Details and ServicesXDetails tables. -/
theorem regDetailLoop_proj {α : Type} (P : RegistryDB → α) (fa : FailSpec) (sid : Nat)
    (l : List (String × List String)) (s : WState)
    (h1 : ∀ a b d, P (insDetailOp a b d) = P d)
    (h2 : ∀ a b d, P (insSxDOp a b d) = P d) :
    P (regDetailLoop fa sid l s).db = P s.db := by
  induction l generalizing s with
  | nil => rfl
  | cons kv t ih =>
    simp only [regDetailLoop]
    rw [ih, regDetailValues_proj P fa sid kv.fst kv.snd s h1 h2]

/-- Without an injected failure the IP loop keeps the failed flag down. -/
theorem regIPLoop_none_failed (sid : Nat) (l : List String) (s : WState) :
    (regIPLoop none sid l s).failed = s.failed := by
  induction l generalizing s with
  | nil => rfl
  | cons a t ih =>
    simp only [regIPLoop]
    rw [ih, doStep_none_failed, doStep_none_failed]

/-- Without an injected failure the proto-port loop keeps the failed flag
down. -/
theorem regPPLoop_none_failed (sid : Nat) (l : List (String × Nat)) (s : WState) :
    (regPPLoop none sid l s).failed = s.failed := by
  induction l generalizing s with
  | nil => rfl
  | cons a t ih =>
    simp only [regPPLoop]
    rw [ih, doStep_none_failed, doStep_none_failed]

/-- Without an injected failure the detail value loop keeps the failed flag
down. -/
theorem regDetailValues_none_failed (sid : Nat) (key : String) (l : List String)
    (s : WState) : (regDetailValues none sid key l s).failed = s.failed := by
  induction l generalizing s with
  | nil => rfl
  | cons v t ih =>
    simp only [regDetailValues]
    rw [ih, doStep_none_failed, doStep_none_failed]

/-- Without an injected failure the detail loop keeps the failed flag down. -/
theorem regDetailLoop_none_failed (sid : Nat) (l : List (String × List String))
    (s : WState) : (regDetailLoop none sid l s).failed = s.failed := by
  induction l generalizing s with
  | nil => rfl
  | cons kv t ih =>
    simp only [regDetailLoop]
    rw [ih, regDetailValues_none_failed]

/-- registerService on the failure-free path: the record comes back with the
fresh id and register-time stamps, the Services table gains exactly the new
row at the end, and the service-id counter advances by one. -/
theorem registerService_none_spec (now : Nat) (db : RegistryDB) (rec : ServiceRecord) :
    (registerServiceM none now db rec).fst =
      some { rec with id := db.nextServiceId, created := now, updated := now
                      endOfValidity := now + rec.regLife } ∧
    (registerServiceM none now db rec).snd.services =
      db.services ++ [regRow rec now db.nextServiceId] ∧
    (registerServiceM none now db rec).snd.nextServiceId = db.nextServiceId + 1 := by
  have hs1 : doStep none (insServiceRowOp rec now) { db := db, step := 0, failed := false }
      = { db := insServiceRowOp rec now db, step := 1, failed := false } := by
    unfold doStep; simp
  have hs4f : (regDetailLoop none db.nextServiceId rec.details
      (regPPLoop none db.nextServiceId rec.protoPort
        (regIPLoop none db.nextServiceId rec.ipAddresses
          { db := insServiceRowOp rec now db, step := 1, failed := false }))).failed
      = false := by
    rw [regDetailLoop_none_failed, regPPLoop_none_failed, regIPLoop_none_failed]
  have hserv : (regDetailLoop none db.nextServiceId rec.details
      (regPPLoop none db.nextServiceId rec.protoPort
        (regIPLoop none db.nextServiceId rec.ipAddresses
          { db := insServiceRowOp rec now db, step := 1, failed := false }))).db.services
      = db.services ++ [regRow rec now db.nextServiceId] := by
    rw [regDetailLoop_proj (fun d => d.services) none _ _ _ (fun _ _ _ => rfl) (fun _ _ _ => rfl),
      regPPLoop_proj (fun d => d.services) none _ _ _ (fun _ _ _ => rfl) (fun _ _ _ => rfl),
      regIPLoop_proj (fun d => d.services) none _ _ _ (fun _ _ => rfl) (fun _ _ _ => rfl)]
    rfl
  have hnext : (regDetailLoop none db.nextServiceId rec.details
      (regPPLoop none db.nextServiceId rec.protoPort
        (regIPLoop none db.nextServiceId rec.ipAddresses
          { db := insServiceRowOp rec now db, step := 1, failed := false }))).db.nextServiceId
      = db.nextServiceId + 1 := by
    rw [regDetailLoop_proj (fun d => d.nextServiceId) none _ _ _ (fun _ _ _ => rfl)
        (fun _ _ _ => rfl),
      regPPLoop_proj (fun d => d.nextServiceId) none _ _ _ (fun _ _ _ => rfl) (fun _ _ _ => rfl),
      regIPLoop_proj (fun d => d.nextServiceId) none _ _ _ (fun _ _ => rfl) (fun _ _ _ => rfl)]
    rfl
  simp only [registerServiceM]
  rw [hs1]
  rw [if_neg (by simp)]
  rw [if_neg (by rw [hs4f]; simp)]
  exact ⟨rfl, hserv, hnext⟩

/-!
Listing safety (C10).
-/

/-- A record with at least one IP address renders without faulting. -/
theorem renderServiceLine_isSome (r : ServiceRecord) (h : r.ipAddresses.isEmpty = false) :
    ∃ s, renderServiceLine r = some s := by
  unfold renderServiceLine
  cases hip : r.ipAddresses with
  | nil => rw [hip] at h; simp at h
  | cons ip rest => exact ⟨_, rfl⟩

/-- A record with no IP address makes the rendering fault (the unguarded
`IPAddresses[0]`). -/
theorem renderServiceLine_none (r : ServiceRecord) (h : r.ipAddresses.isEmpty = true) :
    renderServiceLine r = none := by
  unfold renderServiceLine
  cases hip : r.ipAddresses with
  | nil => rfl
  | cons ip rest => rw [hip] at h; simp at h

/-- Rendering the whole listing succeeds when every record has an address. -/
theorem mapM_render_isSome (recs : List ServiceRecord)
    (h : recs.all (fun r => !r.ipAddresses.isEmpty) = true) :
    (recs.mapM renderServiceLine).isSome = true := by
  induction recs with
  | nil => rfl
  | cons a t ih =>
    rw [List.all_cons, Bool.and_eq_true] at h
    obtain ⟨s, hs⟩ := renderServiceLine_isSome a (by simpa using h.1)
    have iht := ih h.2
    cases hm : t.mapM renderServiceLine with
    | none => rw [hm] at iht; simp at iht
    | some bs =>
      rw [List.mapM_cons, hs, hm]
      rfl

/-- Rendering the whole listing faults when any record lacks an address. -/
theorem mapM_render_none (recs : List ServiceRecord)
    (h : recs.any (fun r => r.ipAddresses.isEmpty) = true) :
    recs.mapM renderServiceLine = none := by
  induction recs with
  | nil => simp at h
  | cons a t ih =>
    rw [List.any_cons, Bool.or_eq_true] at h
    rw [List.mapM_cons]
    rcases h with h | h
    · rw [renderServiceLine_none a h]
      rfl
    · cases hs : renderServiceLine a with
      | none => rfl
      | some s => rw [ih h]; rfl

/-- C10: listCurrentServices renders every record through the unguarded
`IPAddresses[0]` (and the `"http"` proto-port lookup, which merely defaults
to 0): it is fault free exactly when every stored record carries at least one
IP address, and it faults as soon as one record has none — while registration
succeeds for any record, in particular one with an empty ip_addresses
sequence, so no operation establishes that precondition. -/
theorem listCurrentServices_unguarded_first_ip (now : Nat) (db : RegistryDB)
    (rec : ServiceRecord) :
    (registerServiceM none now db rec).fst.isSome = true ∧
    ((getAllRecords db).all (fun r => !r.ipAddresses.isEmpty) = true →
      (listCurrentServices db).isSome = true) ∧
    ((getAllRecords db).any (fun r => r.ipAddresses.isEmpty) = true →
      listCurrentServices db = none) := by
  refine ⟨?_, ?_, ?_⟩
  · rw [(registerService_none_spec now db rec).1]; rfl
  · intro h; exact mapM_render_isSome _ h
  · intro h; exact mapM_render_none _ h



/-- Witness for C10: registering an address-less record succeeds, after which
the listing faults. -/
theorem listCurrentServices_unguarded_first_ip_witness :
    (registerServiceM none 7 emptyDB exRecNoIP).fst.isSome = true ∧
    (getAllRecords exDB10).any (fun r => r.ipAddresses.isEmpty) = true ∧
    listCurrentServices exDB10 = none :=
  ⟨(listCurrentServices_unguarded_first_ip 7 emptyDB exRecNoIP).1, rfl,
    (listCurrentServices_unguarded_first_ip 0 exDB10 exRec).2.2 rfl⟩

/-!
Round trip: register, renew, get (C2).
-/

/-- extendServiceValidity when the id lookup hits a row whose Created matches:
Updated becomes `now`, EndOfValidity becomes `now` plus the STORED RegLife,
Created and Id are untouched. -/
theorem extendServiceValidity_eq_some (now : Nat) (db : RegistryDB) (rec : ServiceRecord)
    (row : ServiceRow)
    (hfind : db.services.find? (fun r => r.sid == rec.id) = some row)
    (hc : rec.created = row.created) :
    extendServiceValidity now db rec =
      (some { rec with regLife := row.regLife, endOfValidity := now + row.regLife },
       { db with services := db.services.map (fun r =>
           if r.sid == rec.id then
             { r with updated := now, endOfValidity := now + row.regLife }
           else r) }) := by
  unfold extendServiceValidity
  simp only [hfind]
  rw [if_pos (by simp [hc])]

/-- C2: registering a record and renewing with the very record the
registration returned yields, on lookup of the (preserved) id, a Created
equal to the register instant and an EndOfValidity equal to the renew instant
plus the record's reg_life.  The hypothesis is the SQLite primary-key
invariant: every stored rowid lies below the auto-increment counter. -/
theorem register_renew_get_roundtrip (now1 now2 : Nat) (db : RegistryDB)
    (rec rec1 : ServiceRecord)
    (hwf : db.services.all (fun r => decide (r.sid < db.nextServiceId)) = true)
    (hreg : (registerServiceM none now1 db rec).fst = some rec1) :
    Option.map (fun r => r.id)
        (extendServiceValidity now2 (registerServiceM none now1 db rec).snd rec1).fst
      = some rec1.id ∧
    Option.map (fun r => r.created)
        (getRecord (extendServiceValidity now2 (registerServiceM none now1 db rec).snd
          rec1).snd rec1.id)
      = some now1 ∧
    Option.map (fun r => r.endOfValidity)
        (getRecord (extendServiceValidity now2 (registerServiceM none now1 db rec).snd
          rec1).snd rec1.id)
      = some (now2 + rec.regLife) ∧
    Option.map (fun r => r.id)
        (getRecord (extendServiceValidity now2 (registerServiceM none now1 db rec).snd
          rec1).snd rec1.id)
      = some rec1.id := by
  obtain ⟨hfst, hserv, -⟩ := registerService_none_spec now1 db rec
  rw [hreg] at hfst
  have hrec1 := Option.some_inj.mp hfst
  have hid : rec1.id = db.nextServiceId := by rw [hrec1]
  have hcr : rec1.created = now1 := by rw [hrec1]
  have hold : ∀ x ∈ db.services, (x.sid == rec1.id) = false := by
    intro x hx
    have hlt : x.sid < db.nextServiceId := of_decide_eq_true (List.all_eq_true.mp hwf x hx)
    rw [hid]
    simp [Nat.ne_of_lt hlt]
  have hfind : (registerServiceM none now1 db rec).snd.services.find?
      (fun r => r.sid == rec1.id) = some (regRow rec now1 db.nextServiceId) := by
    rw [hserv, find?_append_of_all_false _ _ _ hold, hid]
    simp [regRow]
  have hc : rec1.created = (regRow rec now1 db.nextServiceId).created := by
    rw [hcr]; rfl
  have hext := extendServiceValidity_eq_some now2 _ rec1 _ hfind hc
  have hfind2 : ((registerServiceM none now1 db rec).snd.services.map
      (fun r => if r.sid == rec1.id then
          { r with updated := now2,
                   endOfValidity := now2 + (regRow rec now1 db.nextServiceId).regLife }
        else r)).find? (fun r => r.sid == rec1.id)
      = some { regRow rec now1 db.nextServiceId with
                 updated := now2,
                 endOfValidity := now2 + (regRow rec now1 db.nextServiceId).regLife } := by
    rw [hserv, List.map_append]
    have holdm : ∀ x ∈ db.services.map
        (fun r => if r.sid == rec1.id then
            { r with updated := now2,
                     endOfValidity := now2 + (regRow rec now1 db.nextServiceId).regLife }
          else r),
        (x.sid == rec1.id) = false := by
      intro x hx
      obtain ⟨y, hy, rfl⟩ := List.mem_map.mp hx
      have hyy := hold y hy
      rw [if_neg (by simp [hyy])]
      exact hyy
    rw [find?_append_of_all_false _ _ _ holdm, hid]
    simp [regRow]
  refine ⟨?_, ?_, ?_, ?_⟩
  · simp only [hext, Option.map_some']
  · simp only [hext]
    unfold getRecord
    simp only [hfind2, Option.map_some']
    simp [recordOfRow, regRow, hcr]
  · simp only [hext]
    unfold getRecord
    simp only [hfind2, Option.map_some']
    simp [recordOfRow, regRow]
  · simp only [hext]
    unfold getRecord
    simp only [hfind2, Option.map_some']


/-- Witness for C2 at the spec's scenario: register at 5, renew at 20; the
looked-up record keeps Created 5 and carries EndOfValidity 20 + 60. -/
theorem register_renew_get_roundtrip_witness :
    emptyDB.services.all (fun r => decide (r.sid < emptyDB.nextServiceId)) = true ∧
    (registerServiceM none 5 emptyDB exRec).fst = some exReg1 ∧
    Option.map (fun r => r.created)
        (getRecord (extendServiceValidity 20 (registerServiceM none 5 emptyDB exRec).snd
          exReg1).snd exReg1.id) = some 5 ∧
    Option.map (fun r => r.endOfValidity)
        (getRecord (extendServiceValidity 20 (registerServiceM none 5 emptyDB exRec).snd
          exReg1).snd exReg1.id) = some (20 + exRec.regLife) :=
  ⟨rfl, rfl,
    (register_renew_get_roundtrip 5 20 emptyDB exRec exReg1 rfl rfl).2.1,
    (register_renew_get_roundtrip 5 20 emptyDB exRec exReg1 rfl rfl).2.2.1⟩
